import Mathlib

/-!
xcnd: a watcher that runs a program on every root-window geometry change.

Shallow embedding of `src/xcnd.c` (functions `xlib_listen` and `main`).

The program is a sequence of system and Xlib calls.  It is embedded as a pure
function of the answers the outside world gives to those calls (`World`); the
function yields the trace of calls made by the current process, in order, and
the way the process leaves the embedded code (`Outcome`).

`fork` is seen from the process that runs the code: the answer `0` means that
the process is the freshly created child, a positive answer is the pid handed
to the parent and `-1` is failure.
-/

namespace Xcnd

/-! ## Constants of the system headers -/

/-- Priority `LOG_INFO` of `syslog.h`. -/
def LOG_INFO : Nat := 6

/-- Owner-executable permission bit `S_IXUSR` of `sys/stat.h` (octal 0100). -/
def S_IXUSR : Nat := 64

/-- Event kind `ConfigureNotify` of `X11/X.h`. -/
def ConfigureNotify : Int := 22

/-- Event mask `ExposureMask` of `X11/X.h` (bit 15). -/
def ExposureMask : Nat := 32768

/-- Event mask `StructureNotifyMask` of `X11/X.h` (bit 17). -/
def StructureNotifyMask : Nat := 131072

/-! ## Data model -/

/-- A C string pointer `char *`: `none` is the NULL pointer. -/
abbrev CStr := Option String

/-- A non-NULL `Display *`, identified by a number. -/
abbrev Display := Nat

/-- An Xlib `Window`: an `unsigned long` resource identifier. -/
abbrev Window := Nat

/-- The members of `XConfigureEvent` the program reads. -/
structure XConfigureEvent where
  width : Int
  height : Int
deriving DecidableEq, Repr

/-- The members of the `XEvent` union the program reads: the event kind and
the configure view of the payload. -/
structure XEvent where
  type : Int
  xconfigure : XConfigureEvent
deriving DecidableEq, Repr

/-- The messages handed to `syslog`, one constructor per call site. -/
inductive LogMsg where
  /-- The text "No arguments given.\n" (line 61). -/
  | noArguments
  /-- The format "Not an executable: %s\n" with the path (line 66). -/
  | notExecutable (path : CStr)
  /-- The text "Could not open display.\n" (line 17). -/
  | couldNotOpenDisplay
  /-- The text "Failed to obtain the root window.\n" (line 22). -/
  | rootWindowFailed
  /-- The format "%d %d" with width and height (line 34). -/
  | geometry (width height : Int)
  /-- The text `strerror(errno)` (lines 40, 46 and 73). -/
  | strerrorErrno
  /-- The format "executing %s ...\n" with the path (line 44). -/
  | executing (path : CStr)
  /-- The format "on background as %d, exitting...\n" with the pid (line 78). -/
  | onBackground (pid : Int)
deriving DecidableEq, Repr

/-- The calls a process makes, with their arguments. -/
inductive Action where
  | syslog (priority : Nat) (msg : LogMsg)
  | stat (path : CStr)
  | fork
  | XOpenDisplay
  | DefaultRootWindow (display : Display)
  | XSelectInput (display : Display) (window : Window) (mask : Nat)
  | XMapWindow (display : Display) (window : Window)
  | XNextEvent (display : Display)
  | sleep (seconds : Nat)
  | execve (path : CStr) (argv : List String) (envp : List String)
deriving DecidableEq, Repr

/-- How the process leaves the embedded code. -/
inductive Outcome where
  /-- The function returned the given `int`. -/
  | returned (status : Int)
  /-- The call to `XNextEvent` is still waiting: no further event is delivered. -/
  | waiting
  /-- The call to `execve` succeeded: the process image was replaced. -/
  | replaced
  /-- The process reached undefined behaviour (an out-of-bounds read, or the
  point marked `__builtin_unreachable()`). -/
  | undefined
deriving DecidableEq, Repr

/-- The answers of the outside world to the calls of one process. -/
structure World where
  /-- Answer of `stat(path, &sb)`: the return value and `sb.st_mode`. -/
  stat : CStr → Int × Nat
  /-- Answer of the `k`-th call to `fork()` still to come (`fork 0` is the next one). -/
  fork : Nat → Int
  /-- Answer of `XOpenDisplay(NULL)`: `none` is NULL. -/
  XOpenDisplay : Option Display
  /-- Answer of `DefaultRootWindow(display)`, an `unsigned long`. -/
  DefaultRootWindow : Display → Window
  /-- The events `XNextEvent` delivers, in order; after the last one it waits. -/
  XNextEvent : List XEvent
  /-- Answer of `execve`: `none` when it succeeds (it does not return), else
  the returned `int`. -/
  execve : Option Int

/-- The world after one call to `fork`: the remaining answers move up. -/
def World.afterFork (w : World) : World :=
  { w with fork := fun k => w.fork (k + 1) }

/-- The result of running a piece of the program: the calls made, in order,
and the way the process leaves. -/
abbrev Run := List Action × Outcome

/-- Put the calls already made in front of the rest of a run. -/
def Run.after (pre : List Action) (r : Run) : Run := (pre ++ r.1, r.2)

/-- Read `argv[i]` from an argument vector of `argv.length` strings followed by
the terminating NULL: the outer `none` is a read past the end of the array. -/
def argvAt (argv : List String) (i : Nat) : Option CStr :=
  if i < argv.length then some argv[i]?
  else if i = argv.length then some none
  else none

/-! ## The program -/

/-- The child branch `case 0` of the switch in `xlib_listen` (lines 42-47). -/
def spawned (execve : Option Int) (argv envp : List String) : Run :=
  let pre := [Action.sleep 5,
              Action.syslog LOG_INFO (LogMsg.executing argv[0]?),
              Action.execve argv[0]? argv envp]
  match execve with
  | none => (pre, Outcome.replaced)
  | some r =>
    if r = -1 then
      (pre ++ [Action.syslog LOG_INFO LogMsg.strerrorErrno], Outcome.undefined)
    else
      (pre, Outcome.undefined)

/-- The loop `for (XEvent e;;)` of `xlib_listen` (lines 29-52), run on the
events still to be delivered. -/
def eventLoop (display : Display) (execve : Option Int) (argv envp : List String) :
    (Nat → Int) → List XEvent → Run
  | _, [] => ([Action.XNextEvent display], Outcome.waiting)
  | fork, e :: es =>
    if e.type ≠ ConfigureNotify then
      Run.after [Action.XNextEvent display] (eventLoop display execve argv envp fork es)
    else
      let pre := [Action.XNextEvent display,
                  Action.syslog LOG_INFO (LogMsg.geometry e.xconfigure.width e.xconfigure.height),
                  Action.fork]
      let pid := fork 0
      if pid = -1 then
        (pre ++ [Action.syslog LOG_INFO LogMsg.strerrorErrno], Outcome.returned 1)
      else if pid = 0 then
        Run.after pre (spawned execve argv envp)
      else
        Run.after pre (eventLoop display execve argv envp (fun k => fork (k + 1)) es)

/-- The function `xlib_listen` (lines 10-53). -/
def xlib_listen (w : World) (argv envp : List String) : Run :=
  match w.XOpenDisplay with
  | none =>
    ([Action.XOpenDisplay, Action.syslog LOG_INFO LogMsg.couldNotOpenDisplay],
      Outcome.returned 1)
  | some display =>
    let window : Window := w.DefaultRootWindow display
    if window < 0 then
      ([Action.XOpenDisplay, Action.DefaultRootWindow display,
        Action.syslog LOG_INFO LogMsg.rootWindowFailed], Outcome.returned 1)
    else
      Run.after
        [Action.XOpenDisplay, Action.DefaultRootWindow display,
         Action.XSelectInput display window (ExposureMask ||| StructureNotifyMask),
         Action.XMapWindow display window]
        (eventLoop display w.execve argv envp w.fork w.XNextEvent)

/-- The function `main` (lines 55-81). -/
def main (w : World) (argc : Int) (argv envp : List String) : Run :=
  if argc = 1 then
    ([Action.syslog LOG_INFO LogMsg.noArguments], Outcome.returned 1)
  else
    match argvAt argv 1 with
    | none => ([], Outcome.undefined)
    | some path =>
      let sb := w.stat path
      if sb.1 ≠ 0 ∨ sb.2 &&& S_IXUSR = 0 then
        ([Action.stat path, Action.syslog LOG_INFO (LogMsg.notExecutable path)],
          Outcome.returned 1)
      else
        let pid := w.fork 0
        if pid = -1 then
          ([Action.stat path, Action.fork, Action.syslog LOG_INFO LogMsg.strerrorErrno],
            Outcome.returned 1)
        else if pid = 0 then
          Run.after [Action.stat path, Action.fork]
            (xlib_listen w.afterFork (argv.drop 1) envp)
        else
          ([Action.stat path, Action.fork, Action.syslog LOG_INFO (LogMsg.onBackground pid)],
            Outcome.returned 0)

/-! ## Vocabulary of the statements -/

/-- Number of events of kind `ConfigureNotify` in a sequence of events. -/
def configures (es : List XEvent) : Nat :=
  es.countP (fun e => e.type = ConfigureNotify)

/-- The calls one delivered event costs a watcher that goes on watching after
it: the wait that delivered it and, for a `ConfigureNotify`, the geometry log
entry and the fork. -/
def handledOne (display : Display) (e : XEvent) : List Action :=
  if e.type ≠ ConfigureNotify then [Action.XNextEvent display]
  else [Action.XNextEvent display,
        Action.syslog LOG_INFO (LogMsg.geometry e.xconfigure.width e.xconfigure.height),
        Action.fork]

/-- The calls a sequence of delivered events costs a watcher that goes on
watching after each of them. -/
def handled (display : Display) (es : List XEvent) : List Action :=
  es.flatMap (handledOne display)

/-- The calls of `xlib_listen` between a successful `XOpenDisplay` and the loop. -/
def setup (w : World) (display : Display) : List Action :=
  [Action.XOpenDisplay, Action.DefaultRootWindow display,
   Action.XSelectInput display (w.DefaultRootWindow display) (ExposureMask ||| StructureNotifyMask),
   Action.XMapWindow display (w.DefaultRootWindow display)]

/-- Recogniser of the calls to `execve`. -/
def Action.isExecve : Action → Bool
  | Action.execve _ _ _ => true
  | _ => false

/-- Recogniser of the calls to `syslog`. -/
def Action.isSyslog : Action → Bool
  | Action.syslog _ _ => true
  | _ => false

/-! ## Concrete inputs -/

/-- A `ConfigureNotify` event that reports a geometry of 800 by 600. -/
def resize800x600 : XEvent :=
  { type := ConfigureNotify, xconfigure := { width := 800, height := 600 } }

/-- An event of kind `Expose` (12 in `X11/X.h`). -/
def exposeEvent : XEvent :=
  { type := 12, xconfigure := { width := 0, height := 0 } }

/-- The command line `watch ./resize_hook arg1`. -/
def hookArgv : List String := ["watch", "./resize_hook", "arg1"]

/-- An environment vector. -/
def hookEnvp : List String := ["DISPLAY=:0"]

/-- A world in which the target has mode 0755, display 1 opens with root
window 0 and one 800 by 600 `ConfigureNotify` is delivered; the answers of
`fork` and `execve` are left open. -/
def hookWorld (fork : Nat → Int) (execve : Option Int) : World :=
  { stat := fun _ => (0, 493)
    fork := fork
    XOpenDisplay := some 1
    DefaultRootWindow := fun _ => 0
    XNextEvent := [resize800x600]
    execve := execve }

/-- The world `w` in which display `d` opens and has the root window `root`. -/
def World.withRoot (w : World) (d : Display) (root : Window) : World :=
  { w with XOpenDisplay := some d, DefaultRootWindow := fun _ => root }

/-! ## Lemmas on the event loop -/

theorem configures_nil : configures [] = 0 := rfl

theorem configures_cons (e : XEvent) (es : List XEvent) :
    configures (e :: es) = configures es + (if e.type = ConfigureNotify then 1 else 0) := by
  unfold configures
  rw [List.countP_cons]
  simp

theorem handled_nil (d : Display) : handled d [] = [] := rfl

theorem handled_cons (d : Display) (e : XEvent) (es : List XEvent) :
    handled d (e :: es) = handledOne d e ++ handled d es := by
  simp [handled]

/-- A watcher whose forks all hand back a child pid while the events `pre`
are delivered makes the calls `handled pre` and goes on with the rest. -/
theorem eventLoop_append (d : Display) (x : Option Int) (argv envp : List String)
    (pre rest : List XEvent) :
    ∀ fork : Nat → Int, (∀ k, k < configures pre → 0 < fork k) →
      eventLoop d x argv envp fork (pre ++ rest)
        = Run.after (handled d pre)
            (eventLoop d x argv envp (fun k => fork (k + configures pre)) rest) := by
  induction pre with
  | nil =>
    intro fork _
    simp [handled_nil, configures_nil, Run.after]
  | cons e es ih =>
    intro fork hf
    by_cases he : e.type = ConfigureNotify
    · have h0 : 0 < fork 0 := hf 0 (by rw [configures_cons]; simp [he])
      have hrest : ∀ k, k < configures es → 0 < (fun k => fork (k + 1)) k := by
        intro k hk
        exact hf (k + 1) (by rw [configures_cons]; simp [he]; omega)
      have h1 : fork 0 ≠ -1 := by omega
      have h2 : fork 0 ≠ 0 := by omega
      rw [List.cons_append, eventLoop]
      simp only [he, ne_eq, not_true_eq_false, if_false, h1, h2]
      rw [ih _ hrest, handled_cons, configures_cons]
      simp [handledOne, he, Run.after, Nat.add_assoc]
    · have hrest : ∀ k, k < configures es → 0 < fork k := by
        intro k hk
        exact hf k (by rw [configures_cons]; simp [he]; exact hk)
      rw [List.cons_append, eventLoop]
      simp only [he, ne_eq, not_false_eq_true, if_true]
      rw [ih _ hrest, handled_cons, configures_cons]
      simp [handledOne, he, Run.after]

theorem count_fork_handled (d : Display) (es : List XEvent) :
    (handled d es).count Action.fork = configures es := by
  induction es with
  | nil => rfl
  | cons e es ih =>
    rw [handled_cons, List.count_append, ih, configures_cons]
    by_cases he : e.type = ConfigureNotify <;> simp [handledOne, he, Nat.add_comm]

theorem countP_syslog_handled (d : Display) (es : List XEvent) :
    (handled d es).countP Action.isSyslog = configures es := by
  induction es with
  | nil => rfl
  | cons e es ih =>
    rw [handled_cons, List.countP_append, ih, configures_cons]
    by_cases he : e.type = ConfigureNotify <;> simp [handledOne, he, Nat.add_comm, Action.isSyslog]

theorem filter_execve_handled (d : Display) (es : List XEvent) :
    (handled d es).filter Action.isExecve = [] := by
  induction es with
  | nil => rfl
  | cons e es ih =>
    rw [handled_cons, List.filter_append, ih]
    by_cases he : e.type = ConfigureNotify <;> simp [handledOne, he, Action.isExecve]

theorem count_next_handled (d : Display) (es : List XEvent) :
    (handled d es).count (Action.XNextEvent d) = es.length := by
  induction es with
  | nil => rfl
  | cons e es ih =>
    rw [handled_cons, List.count_append, ih, List.length_cons]
    by_cases he : e.type = ConfigureNotify <;> simp [handledOne, he, Nat.add_comm]

theorem rootWindowFailed_not_mem_eventLoop (d : Display) (x : Option Int)
    (argv envp : List String) (es : List XEvent) :
    ∀ fork : Nat → Int,
      Action.syslog LOG_INFO LogMsg.rootWindowFailed ∉ (eventLoop d x argv envp fork es).1 := by
  induction es with
  | nil => intro fork; simp [eventLoop]
  | cons e es ih =>
    intro fork
    rw [eventLoop]
    by_cases he : e.type = ConfigureNotify
    · by_cases hm : fork 0 = -1
      · simp [he, hm]
      · by_cases hz : fork 0 = 0
        · cases x with
          | none => simp [he, hz, Run.after, spawned]
          | some r =>
            by_cases hr : r = -1 <;> simp [he, hz, Run.after, spawned, hr]
        · simp [he, hm, hz, Run.after, ih]
    · simp [he, Run.after, ih]

theorem xlib_listen_open (w : World) (argv envp : List String) (d : Display)
    (hd : w.XOpenDisplay = some d) :
    xlib_listen w argv envp
      = Run.after (setup w d) (eventLoop d w.execve argv envp w.fork w.XNextEvent) := by
  simp [xlib_listen, hd, setup]

theorem eventLoop_spawn (d : Display) (x : Option Int) (argv envp : List String)
    (fork : Nat → Int) (e : XEvent) (post : List XEvent)
    (he : e.type = ConfigureNotify) (h0 : fork 0 = 0) :
    eventLoop d x argv envp fork (e :: post)
      = Run.after (handledOne d e) (spawned x argv envp) := by
  rw [eventLoop]
  simp [he, h0, handledOne]

theorem eventLoop_fork_fails (d : Display) (x : Option Int) (argv envp : List String)
    (fork : Nat → Int) (e : XEvent) (post : List XEvent)
    (he : e.type = ConfigureNotify) (h0 : fork 0 = -1) :
    eventLoop d x argv envp fork (e :: post)
      = (handledOne d e ++ [Action.syslog LOG_INFO LogMsg.strerrorErrno],
          Outcome.returned 1) := by
  rw [eventLoop]
  simp [he, h0, handledOne]

theorem argvAt_one (argc : Int) (argv : List String) (hargc : 2 ≤ argc)
    (hlen : (argv.length : Int) = argc) : argvAt argv 1 = some argv[1]? := by
  have h : 1 < argv.length := by omega
  simp [argvAt, h]

/-- With a target that passes validation, `main` is the switch on the answer
of its one call to `fork`. -/
theorem main_valid (w : World) (argc : Int) (argv envp : List String)
    (hargc : 2 ≤ argc) (hlen : (argv.length : Int) = argc)
    (hret : (w.stat argv[1]?).1 = 0) (hx : (w.stat argv[1]?).2 &&& S_IXUSR ≠ 0) :
    main w argc argv envp =
      Run.after [Action.stat argv[1]?, Action.fork]
        (if w.fork 0 = -1 then
          ([Action.syslog LOG_INFO LogMsg.strerrorErrno], Outcome.returned 1)
        else if w.fork 0 = 0 then xlib_listen w.afterFork (argv.drop 1) envp
        else ([Action.syslog LOG_INFO (LogMsg.onBackground (w.fork 0))], Outcome.returned 0)) := by
  have h1 : argc ≠ 1 := by omega
  simp only [main, h1, if_false, argvAt_one argc argv hargc hlen, hret, hx, ne_eq,
    not_true_eq_false, or_self]
  by_cases hm : w.fork 0 = -1
  · simp [hm, Run.after]
  · by_cases hz : w.fork 0 = 0
    · simp [hz, Run.after]
    · simp [hm, hz, Run.after]

/-! ## The supervisor `main` -/

/-- C1: an invocation of `main` with `argc = 1` logs the missing argument and
returns status 1, whatever the argument vector, the environment and the answers
of `stat` and `fork`; it makes no call to `fork` and never opens a display, so
the watcher `xlib_listen` is not started. -/
theorem main_no_arguments (w : World) (argv envp : List String) :
    main w 1 argv envp
        = ([Action.syslog LOG_INFO LogMsg.noArguments], Outcome.returned 1) ∧
      (main w 1 argv envp).2 = Outcome.returned 1 ∧
      Action.fork ∉ (main w 1 argv envp).1 ∧
      Action.XOpenDisplay ∉ (main w 1 argv envp).1 := by
  simp [main]

/-- C2: with `argc >= 2`, when `stat` on `argv[1]` fails (non-zero return) or
answers a mode whose bit `S_IXUSR` is clear, `main` logs the path as not
executable and returns status 1 without any call to `fork`; the run is fixed by
`argv[1]` alone, no other mode bit and no further argument enters it. -/
theorem main_not_executable (w : World) (argc : Int) (argv envp : List String)
    (hargc : 2 ≤ argc) (hlen : (argv.length : Int) = argc)
    (hstat : (w.stat argv[1]?).1 ≠ 0 ∨ (w.stat argv[1]?).2 &&& S_IXUSR = 0) :
    main w argc argv envp
        = ([Action.stat argv[1]?, Action.syslog LOG_INFO (LogMsg.notExecutable argv[1]?)],
            Outcome.returned 1) ∧
      (main w argc argv envp).2 = Outcome.returned 1 ∧
      Action.fork ∉ (main w argc argv envp).1 := by
  have h1 : argc ≠ 1 := by omega
  have hm : main w argc argv envp
      = ([Action.stat argv[1]?, Action.syslog LOG_INFO (LogMsg.notExecutable argv[1]?)],
          Outcome.returned 1) := by
    simp only [main, h1, if_false, argvAt_one argc argv hargc hlen]
    rw [if_pos hstat]
  rw [hm]
  simp

/-- Witness of C2: `watch ./resize_hook arg1` with a target of mode 0644. -/
theorem main_not_executable_witness :
    main { hookWorld (fun _ => 7) none with stat := fun _ => (0, 420) } 3 hookArgv hookEnvp
        = ([Action.stat (some "./resize_hook"),
            Action.syslog LOG_INFO (LogMsg.notExecutable (some "./resize_hook"))],
            Outcome.returned 1) :=
  (main_not_executable { hookWorld (fun _ => 7) none with stat := fun _ => (0, 420) }
    3 hookArgv hookEnvp (by decide) (by decide) (by decide)).1

/-- C3: with `argc >= 2` and a target that passes validation, `main` calls
`fork` once, right after `stat`. When `fork` answers a positive pid (parent
branch) `main` logs that pid and returns status 0 with no further call: it
opens no display, waits for no event and does not wait for the child. When
`fork` answers 0 (child branch) the process goes on as `xlib_listen` on
`argv + 1` and `envp`; for every other answer `xlib_listen` is not run and the
call to `fork` stays the only one. -/
theorem main_detach (w : World) (argc : Int) (argv envp : List String)
    (hargc : 2 ≤ argc) (hlen : (argv.length : Int) = argc)
    (hret : (w.stat argv[1]?).1 = 0) (hx : (w.stat argv[1]?).2 &&& S_IXUSR ≠ 0) :
    (0 < w.fork 0 →
        main w argc argv envp
          = ([Action.stat argv[1]?, Action.fork,
              Action.syslog LOG_INFO (LogMsg.onBackground (w.fork 0))],
              Outcome.returned 0)) ∧
      (w.fork 0 = 0 →
        main w argc argv envp
          = Run.after [Action.stat argv[1]?, Action.fork]
              (xlib_listen w.afterFork (argv.drop 1) envp)) ∧
      (w.fork 0 ≠ 0 →
        (main w argc argv envp).1.count Action.fork = 1 ∧
        Action.XOpenDisplay ∉ (main w argc argv envp).1 ∧
        ∀ d, Action.XNextEvent d ∉ (main w argc argv envp).1) := by
  rw [main_valid w argc argv envp hargc hlen hret hx]
  refine ⟨?_, ?_, ?_⟩
  · intro hpos
    have h1 : w.fork 0 ≠ -1 := by omega
    have h2 : w.fork 0 ≠ 0 := by omega
    simp [h1, h2, Run.after]
  · intro hz
    simp [hz]
  · intro hnz
    by_cases hm : w.fork 0 = -1
    · simp [hm, Run.after]
    · simp [hm, hnz, Run.after]

/-- Witness of C3: `watch ./resize_hook arg1` with an executable target, seen
from the parent, to which `fork` hands the pid 4242. -/
theorem main_detach_witness :
    main (hookWorld (fun _ => 4242) none) 3 hookArgv hookEnvp
      = ([Action.stat (some "./resize_hook"), Action.fork,
          Action.syslog LOG_INFO (LogMsg.onBackground 4242)],
          Outcome.returned 0) :=
  (main_detach (hookWorld (fun _ => 4242) none) 3 hookArgv hookEnvp
    (by decide) (by decide) (by decide) (by decide)).1 (by decide)

/-! ## The watcher `xlib_listen` -/

/-- C4: when the display opens and every fork of the loop hands the watcher a
child pid, the run of `xlib_listen` on a finite sequence of events is the setup
followed, event by event, by the calls of `handled`, and the watcher is left
waiting for the next event. The number of calls to `fork`, and of log entries,
is the number of `ConfigureNotify` events of the sequence. An event of another
kind, wherever it stands and whatever its payload, adds nothing but the
`XNextEvent` call that delivered it. -/
theorem xlib_listen_forks_per_configure (w : World) (argv envp : List String) (d : Display)
    (hd : w.XOpenDisplay = some d)
    (hf : ∀ k, k < configures w.XNextEvent → 0 < w.fork k) :
    xlib_listen w argv envp
        = (setup w d ++ handled d w.XNextEvent ++ [Action.XNextEvent d], Outcome.waiting) ∧
      (xlib_listen w argv envp).1.count Action.fork = configures w.XNextEvent ∧
      (xlib_listen w argv envp).1.countP Action.isSyslog = configures w.XNextEvent ∧
      (∀ pre e post, w.XNextEvent = pre ++ e :: post → e.type ≠ ConfigureNotify →
        (xlib_listen w argv envp).1
          = setup w d ++ handled d pre ++ [Action.XNextEvent d] ++ handled d post
              ++ [Action.XNextEvent d]) := by
  have hrun : xlib_listen w argv envp
      = (setup w d ++ handled d w.XNextEvent ++ [Action.XNextEvent d], Outcome.waiting) := by
    rw [xlib_listen_open w argv envp d hd]
    have h := eventLoop_append d w.execve argv envp w.XNextEvent [] w.fork hf
    rw [List.append_nil] at h
    rw [h]
    simp [eventLoop, Run.after]
  rw [hrun]
  refine ⟨rfl, ?_, ?_, ?_⟩
  · simp only [List.count_append, count_fork_handled]
    simp [setup]
  · simp only [List.countP_append, countP_syslog_handled]
    simp [setup, Action.isSyslog]
  · intro pre e post hev he
    simp [hev, handled, handledOne, he]

/-- Witness of C4: an `Expose`, a `ConfigureNotify` and another `Expose` are
delivered; the watcher forks once. -/
theorem xlib_listen_forks_per_configure_witness :
    (xlib_listen
      { hookWorld (fun _ => 4243) none with
        XNextEvent := [exposeEvent, resize800x600, exposeEvent] }
      ["./resize_hook", "arg1"] hookEnvp).1.count Action.fork = 1 :=
  (xlib_listen_forks_per_configure
    { hookWorld (fun _ => 4243) none with
      XNextEvent := [exposeEvent, resize800x600, exposeEvent] }
    ["./resize_hook", "arg1"] hookEnvp 1 rfl (by intro k _; simp [hookWorld])).2.1

/-- C5: in the process that `main` turned into the watcher (its fork answered
0) and that a later fork of the loop, made for a `ConfigureNotify` event `e`,
turned into a spawned child, the calls after that fork are `sleep(5)`, the
pre-exec log and one `execve` whose path is `argv[1]`, whose argument vector is
`argv` without its first entry and whose environment is `envp`; a failure log
follows only when `execve` answers -1. It is the only `execve` of the run, and
its three arguments do not depend on `e` or on the events handled before. -/
theorem main_spawn_target (w : World) (argc : Int) (argv envp : List String) (d : Display)
    (pre post : List XEvent) (e : XEvent)
    (hargc : 2 ≤ argc) (hlen : (argv.length : Int) = argc)
    (hret : (w.stat argv[1]?).1 = 0) (hx : (w.stat argv[1]?).2 &&& S_IXUSR ≠ 0)
    (hwatcher : w.fork 0 = 0) (hd : w.XOpenDisplay = some d)
    (hev : w.XNextEvent = pre ++ e :: post) (he : e.type = ConfigureNotify)
    (hpre : ∀ k, k < configures pre → 0 < w.fork (k + 1))
    (hchild : w.fork (configures pre + 1) = 0) :
    (main w argc argv envp).1
        = [Action.stat argv[1]?, Action.fork] ++ setup w d ++ handled d pre
          ++ [Action.XNextEvent d,
              Action.syslog LOG_INFO (LogMsg.geometry e.xconfigure.width e.xconfigure.height),
              Action.fork,
              Action.sleep 5,
              Action.syslog LOG_INFO (LogMsg.executing argv[1]?),
              Action.execve argv[1]? (argv.drop 1) envp]
          ++ (if w.execve = some (-1) then [Action.syslog LOG_INFO LogMsg.strerrorErrno]
              else []) ∧
      (main w argc argv envp).1.filter Action.isExecve
        = [Action.execve argv[1]? (argv.drop 1) envp] ∧
      (w.execve = none → (main w argc argv envp).2 = Outcome.replaced) := by
  have hd2 : w.afterFork.XOpenDisplay = some d := hd
  have hloop : eventLoop d w.execve (argv.drop 1) envp w.afterFork.fork (pre ++ e :: post)
      = Run.after (handled d pre)
          (Run.after (handledOne d e) (spawned w.execve (argv.drop 1) envp)) := by
    rw [eventLoop_append d w.execve (argv.drop 1) envp pre (e :: post) w.afterFork.fork hpre]
    rw [eventLoop_spawn d w.execve (argv.drop 1) envp _ e post he
      (by simpa [World.afterFork, Nat.add_comm] using hchild)]
  have hmain : main w argc argv envp
      = Run.after [Action.stat argv[1]?, Action.fork]
          (Run.after (setup w d) (Run.after (handled d pre)
            (Run.after (handledOne d e) (spawned w.execve (argv.drop 1) envp)))) := by
    rw [main_valid w argc argv envp hargc hlen hret hx]
    simp only [hwatcher]
    rw [if_neg (by decide), if_pos trivial, xlib_listen_open w.afterFork (argv.drop 1) envp d hd2]
    have hw : w.afterFork.XNextEvent = pre ++ e :: post := hev
    have hx2 : w.afterFork.execve = w.execve := rfl
    rw [hw, hx2, hloop]
    rfl
  rw [hmain]
  have hxs : ∀ x : Option Int,
      (spawned x (argv.drop 1) envp).1
        = [Action.sleep 5, Action.syslog LOG_INFO (LogMsg.executing argv[1]?),
            Action.execve argv[1]? (argv.drop 1) envp]
          ++ (if x = some (-1) then [Action.syslog LOG_INFO LogMsg.strerrorErrno] else []) := by
    intro x
    cases x with
    | none => simp [spawned]
    | some r => by_cases hr : r = -1 <;> simp [spawned, hr]
  refine ⟨?_, ?_, ?_⟩
  · simp only [Run.after, hxs]
    simp [handledOne, he]
  · simp only [Run.after, hxs, List.filter_append, filter_execve_handled]
    by_cases hr : w.execve = some (-1) <;>
      simp [setup, handledOne, he, Action.isExecve, hr]
  · intro hnone
    simp [Run.after, spawned, hnone]

/-- Witness of C5: `watch ./resize_hook arg1` and one 800 by 600
`ConfigureNotify`: the child logs the geometry 800 600 before it is forked, then
sleeps, logs and executes `./resize_hook` with the arguments `./resize_hook`,
`arg1` and the environment of `main`. -/
theorem main_spawn_target_witness :
    (main (hookWorld (fun _ => 0) none) 3 hookArgv hookEnvp).1
      = [Action.stat (some "./resize_hook"), Action.fork,
         Action.XOpenDisplay, Action.DefaultRootWindow 1,
         Action.XSelectInput 1 0 (ExposureMask ||| StructureNotifyMask),
         Action.XMapWindow 1 0,
         Action.XNextEvent 1,
         Action.syslog LOG_INFO (LogMsg.geometry 800 600),
         Action.fork,
         Action.sleep 5,
         Action.syslog LOG_INFO (LogMsg.executing (some "./resize_hook")),
         Action.execve (some "./resize_hook") ["./resize_hook", "arg1"] hookEnvp] :=
  (main_spawn_target (hookWorld (fun _ => 0) none) 3 hookArgv hookEnvp 1 [] []
    resize800x600 (by decide) (by decide) (by decide) (by decide) rfl rfl rfl rfl
    (by intro k hk; exact absurd hk (Nat.not_lt_zero k)) rfl).1

/-- C7: a failing fork is fatal with status 1 at both levels. (a) When the
target passes validation and the fork of `main` answers -1, `main` logs the OS
error and returns 1 without running the watcher. (b) In `xlib_listen`, at the
first `ConfigureNotify` event whose fork answers -1 (the forks for the events
before it handed back child pids), the watcher logs the OS error and returns 1;
the run does not depend on the events that follow: none of them is waited for,
logged or forked for. -/
theorem fork_failure_fatal :
    (∀ (w : World) (argc : Int) (argv envp : List String),
        2 ≤ argc → (argv.length : Int) = argc →
        (w.stat argv[1]?).1 = 0 → (w.stat argv[1]?).2 &&& S_IXUSR ≠ 0 →
        w.fork 0 = -1 →
        main w argc argv envp
            = ([Action.stat argv[1]?, Action.fork,
                Action.syslog LOG_INFO LogMsg.strerrorErrno], Outcome.returned 1) ∧
          Action.XOpenDisplay ∉ (main w argc argv envp).1) ∧
      (∀ (w : World) (argv envp : List String) (d : Display)
          (pre post : List XEvent) (e : XEvent),
        w.XOpenDisplay = some d → w.XNextEvent = pre ++ e :: post →
        e.type = ConfigureNotify →
        (∀ k, k < configures pre → 0 < w.fork k) →
        w.fork (configures pre) = -1 →
        xlib_listen w argv envp
            = (setup w d ++ handled d pre
                ++ [Action.XNextEvent d,
                    Action.syslog LOG_INFO
                      (LogMsg.geometry e.xconfigure.width e.xconfigure.height),
                    Action.fork,
                    Action.syslog LOG_INFO LogMsg.strerrorErrno],
                Outcome.returned 1) ∧
          (xlib_listen w argv envp).1.count (Action.XNextEvent d) = pre.length + 1 ∧
          (xlib_listen w argv envp).1.count Action.fork = configures pre + 1) := by
  constructor
  · intro w argc argv envp hargc hlen hret hx hm
    rw [main_valid w argc argv envp hargc hlen hret hx]
    simp [hm, Run.after]
  · intro w argv envp d pre post e hd hev he hpre hfail
    have hrun : xlib_listen w argv envp
        = (setup w d ++ handled d pre
            ++ [Action.XNextEvent d,
                Action.syslog LOG_INFO
                  (LogMsg.geometry e.xconfigure.width e.xconfigure.height),
                Action.fork,
                Action.syslog LOG_INFO LogMsg.strerrorErrno],
            Outcome.returned 1) := by
      rw [xlib_listen_open w argv envp d hd, hev,
        eventLoop_append d w.execve argv envp pre (e :: post) w.fork hpre,
        eventLoop_fork_fails d w.execve argv envp _ e post he (by simpa using hfail)]
      simp [Run.after, handledOne, he]
    rw [hrun]
    refine ⟨rfl, ?_, ?_⟩
    · simp only [List.count_append, count_next_handled]
      simp [setup]
    · simp only [List.count_append, count_fork_handled]
      simp [setup]

/-- Witness of C7: with every fork failing, `main` on
`watch ./resize_hook arg1` returns 1 after its fork, and `xlib_listen`, to which
an `Expose` and two `ConfigureNotify` events are delivered, returns 1 at the
first `ConfigureNotify`. -/
theorem fork_failure_fatal_witness :
    main (hookWorld (fun _ => -1) none) 3 hookArgv hookEnvp
        = ([Action.stat (some "./resize_hook"), Action.fork,
            Action.syslog LOG_INFO LogMsg.strerrorErrno], Outcome.returned 1) ∧
      xlib_listen
          { hookWorld (fun _ => -1) none with
            XNextEvent := [exposeEvent, resize800x600, resize800x600] }
          ["./resize_hook", "arg1"] hookEnvp
        = ([Action.XOpenDisplay, Action.DefaultRootWindow 1,
            Action.XSelectInput 1 0 (ExposureMask ||| StructureNotifyMask),
            Action.XMapWindow 1 0,
            Action.XNextEvent 1,
            Action.XNextEvent 1,
            Action.syslog LOG_INFO (LogMsg.geometry 800 600),
            Action.fork,
            Action.syslog LOG_INFO LogMsg.strerrorErrno], Outcome.returned 1) :=
  ⟨(fork_failure_fatal.1 (hookWorld (fun _ => -1) none) 3 hookArgv hookEnvp
      (by decide) (by decide) (by decide) (by decide) rfl).1,
   (fork_failure_fatal.2
      { hookWorld (fun _ => -1) none with
        XNextEvent := [exposeEvent, resize800x600, resize800x600] }
      ["./resize_hook", "arg1"] hookEnvp 1 [exposeEvent] [resize800x600] resize800x600
      rfl rfl rfl (by intro k hk; exact absurd hk (Nat.not_lt_zero k)) rfl).1⟩

/-- C8: when `XOpenDisplay` answers NULL, `xlib_listen` logs the failure and
returns status 1, whatever the argument and environment vectors. `XOpenDisplay`
is called once; no root window is obtained, no input selected, no window
mapped, no event waited for and no fork made. -/
theorem xlib_listen_no_display (w : World) (argv envp : List String)
    (hd : w.XOpenDisplay = none) :
    xlib_listen w argv envp
        = ([Action.XOpenDisplay, Action.syslog LOG_INFO LogMsg.couldNotOpenDisplay],
            Outcome.returned 1) ∧
      (xlib_listen w argv envp).1.count Action.XOpenDisplay = 1 ∧
      Action.fork ∉ (xlib_listen w argv envp).1 := by
  have hrun : xlib_listen w argv envp
      = ([Action.XOpenDisplay, Action.syslog LOG_INFO LogMsg.couldNotOpenDisplay],
          Outcome.returned 1) := by
    simp [xlib_listen, hd]
  rw [hrun]
  simp

/-- Witness of C8: the display does not open for the arguments
`./resize_hook arg1`. -/
theorem xlib_listen_no_display_witness :
    xlib_listen { hookWorld (fun _ => 4243) none with XOpenDisplay := none }
        ["./resize_hook", "arg1"] hookEnvp
      = ([Action.XOpenDisplay, Action.syslog LOG_INFO LogMsg.couldNotOpenDisplay],
          Outcome.returned 1) :=
  (xlib_listen_no_display { hookWorld (fun _ => 4243) none with XOpenDisplay := none }
    ["./resize_hook", "arg1"] hookEnvp rfl).1

/-! ## Places where the code leaves the behaviour undefined or a branch dead -/

/-- C6: in a spawned child whose `execve` answers -1 the code logs the error and
then runs into the point marked `__builtin_unreachable()`: the child makes no
call that ends the process, its behaviour from there on is undefined. So it is
for the child spawned by `xlib_listen` for one 800 by 600 `ConfigureNotify`. -/
theorem spawned_execve_fails_undefined (argv envp : List String) :
    spawned (some (-1)) argv envp
        = ([Action.sleep 5, Action.syslog LOG_INFO (LogMsg.executing argv[0]?),
            Action.execve argv[0]? argv envp,
            Action.syslog LOG_INFO LogMsg.strerrorErrno], Outcome.undefined) ∧
      xlib_listen (hookWorld (fun _ => 0) (some (-1))) ["./resize_hook", "arg1"] hookEnvp
        = ([Action.XOpenDisplay, Action.DefaultRootWindow 1,
            Action.XSelectInput 1 0 (ExposureMask ||| StructureNotifyMask),
            Action.XMapWindow 1 0,
            Action.XNextEvent 1,
            Action.syslog LOG_INFO (LogMsg.geometry 800 600),
            Action.fork,
            Action.sleep 5,
            Action.syslog LOG_INFO (LogMsg.executing (some "./resize_hook")),
            Action.execve (some "./resize_hook") ["./resize_hook", "arg1"] hookEnvp,
            Action.syslog LOG_INFO LogMsg.strerrorErrno], Outcome.undefined) := by
  constructor
  · simp [spawned]
  · rfl

/-- C9: for every root-window handle the test `window < 0` of `xlib_listen` is
false, the handle being unsigned: once the display is open the function selects
input, maps the window and enters the loop, and the root-window failure is never
logged. With the handle 0 and no event it ends up waiting in `XNextEvent`. -/
theorem xlib_listen_root_window_never_fails (w : World) (argv envp : List String)
    (d : Display) (root : Window) :
    xlib_listen (w.withRoot d root) argv envp
        = Run.after
            [Action.XOpenDisplay, Action.DefaultRootWindow d,
             Action.XSelectInput d root (ExposureMask ||| StructureNotifyMask),
             Action.XMapWindow d root]
            (eventLoop d w.execve argv envp w.fork w.XNextEvent) ∧
      Action.syslog LOG_INFO LogMsg.rootWindowFailed
        ∉ (xlib_listen (w.withRoot d root) argv envp).1 ∧
      xlib_listen ((hookWorld (fun _ => 4243) none).withRoot 1 0) ["./resize_hook"] hookEnvp
        = ([Action.XOpenDisplay, Action.DefaultRootWindow 1,
            Action.XSelectInput 1 0 (ExposureMask ||| StructureNotifyMask),
            Action.XMapWindow 1 0,
            Action.XNextEvent 1,
            Action.syslog LOG_INFO (LogMsg.geometry 800 600),
            Action.fork,
            Action.XNextEvent 1], Outcome.waiting) := by
  have hrun : xlib_listen (w.withRoot d root) argv envp
      = Run.after
          [Action.XOpenDisplay, Action.DefaultRootWindow d,
           Action.XSelectInput d root (ExposureMask ||| StructureNotifyMask),
           Action.XMapWindow d root]
          (eventLoop d w.execve argv envp w.fork w.XNextEvent) := by
    simp [xlib_listen, World.withRoot]
  refine ⟨hrun, ?_, rfl⟩
  rw [hrun]
  have h := rootWindowFailed_not_mem_eventLoop d w.execve argv envp w.XNextEvent w.fork
  simp [Run.after, h]

/-- C10: with an empty argument vector (`argc = 0`) the guard `argc == 1` does
not reject the invocation and `main` reads `argv[1]`, one entry past the
terminating NULL of the vector: the run is undefined from its first step, no
status is returned and nothing is logged. -/
theorem main_argc_zero_reads_past_argv (w : World) (envp : List String) :
    argvAt [] 1 = none ∧
      main w 0 [] envp = ([], Outcome.undefined) := by
  constructor
  · rfl
  · simp [main, argvAt]

end Xcnd
